import Mathlib

/-
Verification of the connection-lifecycle and cluster-introspection engine of
kafkarecon (src/kafkarecon.py) against its specification, via a shallow
embedding in Lean 4.

Modelling conventions:
* Python dicts are embedded as association lists kept in insertion order
  (`lookupD` is key lookup, `insertD` is `d[k] = v`: update in place when the
  key exists, append otherwise, exactly like a Python dict).
* JSON values (what `json.load` can return) are the inductive `JValue`.
* External effects are supplied by explicit oracle structures: the outcome of
  reading/parsing a file, the value of `uuid4().hex`, the index drawn by
  `random.choice`, and the outcomes of `AdminClient(...)`, `Consumer(...)`,
  `list_topics` and `describe_configs` calls.  Quantifying over the oracle
  quantifies over every behaviour of the external world.
* Everything the program prints is recorded as a structured `Out` value, one
  constructor per `print`/`tprint` site, carrying the data interpolated into
  the printed text.
* A Python exception escaping a function is an `Except.error`; exceptions the
  source catches never surface as `Except.error` of the embedding.
-/

namespace Kafkarecon

/-- JSON values as produced by `json.load`. -/
inductive JValue where
  | null
  | str (s : String)
  | num (n : Int)
  | bool (b : Bool)
  | arr (xs : List JValue)
  | obj (fields : List (String × JValue))

/-- A Python dict with string keys, in insertion order. -/
abbrev Dict := List (String × JValue)

/-- Key lookup in a dict (`d[k]` / `k in d`); keys are unique in a real dict,
so first match is the match. -/
def lookupD (d : Dict) (k : String) : Option JValue :=
  match d with
  | [] => none
  | (k', v') :: rest => if k' = k then some v' else lookupD rest k

/-- Python `d[k] = v`: replace in place if `k` is present, else append. -/
def insertD (d : Dict) (k : String) (v : JValue) : Dict :=
  match d with
  | [] => [(k, v)]
  | (k', v') :: rest =>
    if k' = k then (k, v) :: rest else (k', v') :: insertD rest k v

/-- Python `d |= new`: set every binding of `new` into `d`, in order. -/
def unionD (d : Dict) (new : Dict) : Dict :=
  new.foldl (fun acc kv => insertD acc kv.1 kv.2) d

/-- The admin client handle; its identity is all the model needs. -/
structure AdminClient where
  tag : Nat
  deriving DecidableEq

/-- The consumer client handle; its identity is all the model needs. -/
structure Consumer where
  tag : Nat
  deriving DecidableEq

/-- One row of a broker-config table: name, value, source, read-only marker,
sensitive marker, as printed by `tprint` in `exec_cluster`. -/
abbrev ConfigRow := String × String × String × String × String

/-- Everything the program prints, one constructor per print site, carrying
the data interpolated into the message. -/
inductive Out where
  | couldNotLoad
  | mustBeObject
  | loadedConfig (new : Dict)
  | groupIdGenerated (gid : String)
  | bootstrapMissing
  | adminConnected
  | adminFailed (msg : String)
  | consumerConnected
  | consumerFailed (msg : String)
  | notConnected
  | adminDisconnected
  | consumerDisconnected
  | metadataError (msg : String)
  | clusterId (s : String)
  | origBrokerName (s : String)
  | brokerTable (rows : List (Int × String × Int))
  | validOrigBroker (id : Int)
  | invalidOrigBroker (id : Int)
  | validController (id : Int)
  | invalidController (id : Int)
  | configTable (brokerId : Int) (rows : List ConfigRow)
  | describeFailed (brokerId : Int)

/-- The `State` dataclass: configuration dict, optional admin client, optional
consumer, and the broker display label (a `JValue` because `S.broker` is
assigned the raw configured bootstrap value). -/
structure State where
  config : Dict
  admin : Option AdminClient
  consumer : Option Consumer
  broker : JValue

/-- The initial value of `S.broker`. -/
def notConnectedLabel : JValue := JValue.str "not connected"

/-- The `State()` defaults: empty config, no clients, sentinel label. -/
def initialState : State :=
  { config := [], admin := none, consumer := none, broker := notConnectedLabel }

/-- Embedding of `exec_load`.  The `doc` argument is the outcome of
`open(fpath)` + `json.load(f)`: `.error` for a missing/unreadable/unparseable
file, `.ok v` for a successfully parsed document `v`.  Returns the updated
configuration dict and the printed output (`print_config(new)` is folded into
`Out.loadedConfig`). -/
def exec_load (config : Dict) (doc : Except Unit JValue) : Dict × List Out :=
  match doc with
  | .error _ => (config, [Out.couldNotLoad])
  | .ok v =>
    match v with
    | .obj fields => (unionD config fields, [Out.loadedConfig fields])
    | _ => (config, [Out.mustBeObject])

/- ===== dict lemmas ===== -/

theorem lookupD_insertD (d : Dict) (k k' : String) (v : JValue) :
    lookupD (insertD d k v) k' = if k = k' then some v else lookupD d k' := by
  induction d with
  | nil => simp [insertD, lookupD]
  | cons kv rest ih =>
    obtain ⟨k₀, v₀⟩ := kv
    by_cases h0 : k₀ = k
    · subst h0
      by_cases h1 : k₀ = k'
      · subst h1
        simp [insertD, lookupD]
      · simp [insertD, lookupD, h1]
    · by_cases h1 : k₀ = k'
      · subst h1
        have h2 : ¬k = k₀ := fun h => h0 h.symm
        simp [insertD, lookupD, h0, h2]
      · simp [insertD, lookupD, h0, h1, ih]

theorem lookupD_eq_none_of_not_mem (d : Dict) (k : String)
    (h : k ∉ d.map Prod.fst) : lookupD d k = none := by
  induction d with
  | nil => rfl
  | cons kv rest ih =>
    simp only [List.map_cons, List.mem_cons] at h
    push_neg at h
    have h1 : ¬kv.1 = k := fun e => h.1 e.symm
    simp [lookupD, h1, ih h.2]

theorem lookupD_unionD (d new : Dict)
    (hN : (new.map Prod.fst).Nodup) (k : String) :
    lookupD (unionD d new) k = (lookupD new k).orElse (fun _ => lookupD d k) := by
  induction new generalizing d with
  | nil => simp [unionD, lookupD, Option.orElse]
  | cons kv rest ih =>
    obtain ⟨k₀, v₀⟩ := kv
    simp only [List.map_cons, List.nodup_cons] at hN
    have hrest := ih (insertD d k₀ v₀) hN.2
    show lookupD (unionD (insertD d k₀ v₀) rest) k = _
    rw [hrest, lookupD_insertD]
    by_cases h : k₀ = k
    · subst h
      have : lookupD rest k₀ = none :=
        lookupD_eq_none_of_not_mem rest k₀ hN.1
      simp [lookupD, this, Option.orElse]
    · simp [lookupD, h, Option.orElse]

/- ===== C3 / C4 ===== -/

/-- C3: on any load input that is a missing/unreadable/unparseable file or a
document whose top level is not an object, `exec_load` reports a non-fatal
diagnostic and leaves the configuration store exactly equal to its prior
contents. -/
theorem exec_load_failure_preserves_config (config : Dict)
    (doc : Except Unit JValue) (h : ∀ fields, doc ≠ .ok (.obj fields)) :
    (exec_load config doc).1 = config ∧
      ((exec_load config doc).2 = [Out.couldNotLoad] ∨
        (exec_load config doc).2 = [Out.mustBeObject]) := by
  match doc with
  | .error _ => exact ⟨rfl, Or.inl rfl⟩
  | .ok .null => exact ⟨rfl, Or.inr rfl⟩
  | .ok (.str s) => exact ⟨rfl, Or.inr rfl⟩
  | .ok (.num n) => exact ⟨rfl, Or.inr rfl⟩
  | .ok (.bool b) => exact ⟨rfl, Or.inr rfl⟩
  | .ok (.arr xs) => exact ⟨rfl, Or.inr rfl⟩
  | .ok (.obj fields) => exact absurd rfl (h fields)

/-- Witness for C3 at a concrete top-level array document. -/
theorem exec_load_failure_preserves_config_witness :
    (exec_load [("a", JValue.str "1")] (.ok (.arr [JValue.num 3]))).1
        = [("a", JValue.str "1")] ∧
      ((exec_load [("a", JValue.str "1")] (.ok (.arr [JValue.num 3]))).2
          = [Out.couldNotLoad] ∨
        (exec_load [("a", JValue.str "1")] (.ok (.arr [JValue.num 3]))).2
          = [Out.mustBeObject]) :=
  exec_load_failure_preserves_config [("a", JValue.str "1")]
    (.ok (.arr [JValue.num 3])) (fun fields h => by cases h)

/-- C4: loading a successfully parsed top-level-object document is a shallow
override merge: afterwards every key present in the document maps to the
document's value, and every key absent from the document keeps its prior
value. -/
theorem exec_load_merge_override (config : Dict) (fields : Dict)
    (hN : (fields.map Prod.fst).Nodup) :
    ∀ k, lookupD (exec_load config (.ok (.obj fields))).1 k
      = (lookupD fields k).orElse (fun _ => lookupD config k) := by
  intro k
  exact lookupD_unionD config fields hN k

/-- Witness for C4: two sequential loads where the second overrides one key
yield the first mapping with exactly that key replaced and the rest intact. -/
theorem exec_load_merge_override_witness :
    lookupD (exec_load [("a", JValue.str "1"), ("b", JValue.str "2")]
        (.ok (.obj [("b", JValue.str "9")]))).1 "b" = some (JValue.str "9") ∧
      lookupD (exec_load [("a", JValue.str "1"), ("b", JValue.str "2")]
        (.ok (.obj [("b", JValue.str "9")]))).1 "a" = some (JValue.str "1") := by
  constructor
  · rw [exec_load_merge_override [("a", JValue.str "1"), ("b", JValue.str "2")]
      [("b", JValue.str "9")] (by simp) "b"]
    rfl
  · rw [exec_load_merge_override [("a", JValue.str "1"), ("b", JValue.str "2")]
      [("b", JValue.str "9")] (by simp) "a"]
    rfl

/- ===== exec_connect embedding ===== -/

/-- Python exceptions that escape the embedded code uncaught. -/
inductive PyErr where
  | indexError
  deriving DecidableEq

/-- Embedding of `random.choice(xs)` with the random draw `i` supplied by the
oracle: picks element `i % len(xs)`; on an empty sequence `random.choice`
raises `IndexError`. -/
def pyChoice (xs : List JValue) (i : Nat) : Except PyErr JValue :=
  match xs with
  | [] => .error .indexError
  | _ => .ok (xs.getD (i % xs.length) JValue.null)

/-- Bootstrap-address resolution in `exec_connect`: a list value goes through
`random.choice`, any other value is used as-is. -/
def resolveBootstrap (bv : JValue) (i : Nat) : Except PyErr JValue :=
  match bv with
  | .arr xs => pyChoice xs i
  | v => .ok v

/-- The explicit allow-list of configuration keys copied into the admin
client's dict. -/
def adminAllowKeys : List String :=
  ["security.protocol", "ssl.ca.location", "ssl.certificate.location",
    "ssl.key.location"]

/-- The dict passed to `AdminClient(...)`: the allow-listed entries of the
configuration (in order) plus the resolved bootstrap address. -/
def adminCfgOf (cfg : Dict) (bs : JValue) : Dict :=
  insertD (cfg.filter (fun kv => adminAllowKeys.contains kv.1))
    "bootstrap.servers" bs

/-- The dict passed to `Consumer(...)`: the entire configuration overridden
with the resolved bootstrap address and forced `enable.partition.eof`. -/
def consumerCfgOf (cfg : Dict) (bs : JValue) : Dict :=
  insertD (insertD cfg "bootstrap.servers" bs) "enable.partition.eof"
    (JValue.bool true)

/-- Oracle for one `exec_connect` call: the value of `uuid4().hex`, the random
draw used by `random.choice`, and the outcomes of the `AdminClient` and
`Consumer` constructors (`.error msg` models a raised `KafkaException`). -/
structure ConnEnv where
  freshGid : String
  chooseIdx : Nat
  mkAdmin : Dict → Except String AdminClient
  mkConsumer : Dict → Except String Consumer

/-- Embedding of `exec_connect`, as a function from the session state to the
new session state plus printed output; `Except.error` is an exception escaping
`exec_connect` (only `KafkaException` is caught by the source). -/
def exec_connect (env : ConnEnv) (s : State) : Except PyErr (State × List Out) :=
  let (cfg1, outs1) :=
    match lookupD s.config "group.id" with
    | some _ => (s.config, ([] : List Out))
    | none =>
      (insertD s.config "group.id" (JValue.str env.freshGid),
        [Out.groupIdGenerated env.freshGid])
  match lookupD cfg1 "bootstrap.servers" with
  | none => .ok ({ s with config := cfg1 }, outs1 ++ [Out.bootstrapMissing])
  | some bv =>
    match resolveBootstrap bv env.chooseIdx with
    | .error e => .error e
    | .ok bs =>
      let (admin2, broker2, outs2) :=
        match env.mkAdmin (adminCfgOf cfg1 bs) with
        | .ok a => (some a, bs, [Out.adminConnected])
        | .error e => (s.admin, s.broker, [Out.adminFailed e])
      let (consumer3, broker3, outs3) :=
        match env.mkConsumer (consumerCfgOf cfg1 bs) with
        | .ok c => (some c, bs, [Out.consumerConnected])
        | .error e => (s.consumer, broker2, [Out.consumerFailed e])
      .ok ((⟨cfg1, admin2, consumer3, broker3⟩ : State),
        outs1 ++ outs2 ++ outs3)

/-- The state a connect call ends in, when no exception escaped. -/
def resultState (r : Except PyErr (State × List Out)) : Option State :=
  match r with
  | .ok p => some p.1
  | .error _ => none

/-- The output printed by a connect call (empty if an exception escaped
mid-way output is not modelled for the escaping case). -/
def resultOuts (r : Except PyErr (State × List Out)) : List Out :=
  match r with
  | .ok p => p.2
  | .error _ => []

/-- The group identifiers reported as freshly generated in an output list. -/
def generatedGids (outs : List Out) : List String :=
  outs.filterMap (fun o =>
    match o with
    | .groupIdGenerated g => some g
    | _ => none)

/- ===== C5 ===== -/

/-- C5: with no bootstrap-address key configured, `exec_connect` aborts before
any client construction: from the never-connected state it yields no admin
handle, no consumer handle, and the label stays the sentinel; moreover the
whole call's result is independent of the client-constructor and random-choice
oracles (no construction or network call is attempted). -/
theorem exec_connect_missing_bootstrap_no_clients (env : ConnEnv) (cfg : Dict)
    (h : lookupD cfg "bootstrap.servers" = none) :
    (resultState (exec_connect env ⟨cfg, none, none, notConnectedLabel⟩)).map
        (fun st => (st.admin, st.consumer, st.broker))
      = some (none, none, notConnectedLabel) ∧
      ∀ env' : ConnEnv, env'.freshGid = env.freshGid →
        exec_connect env' ⟨cfg, none, none, notConnectedLabel⟩
          = exec_connect env ⟨cfg, none, none, notConnectedLabel⟩ := by
  have hk : ¬("group.id" = "bootstrap.servers") := by decide
  cases hg : lookupD cfg "group.id" with
  | none =>
    constructor
    · simp [exec_connect, hg, lookupD_insertD, hk, h, resultState]
    · intro env' he
      simp [exec_connect, hg, lookupD_insertD, hk, h, he]
  | some g =>
    constructor
    · simp [exec_connect, hg, h, resultState]
    · intro env' he
      simp [exec_connect, hg, h]

/-- Oracle instance used by concrete witnesses: fixed gid, draw 0, both
constructors succeed. -/
def envOkOk : ConnEnv :=
  { freshGid := "g0", chooseIdx := 0,
    mkAdmin := fun _ => .ok ⟨0⟩, mkConsumer := fun _ => .ok ⟨1⟩ }

/-- Witness for C5 at a concrete configuration without a bootstrap key. -/
theorem exec_connect_missing_bootstrap_no_clients_witness :
    (resultState (exec_connect envOkOk
        ⟨[("x", JValue.str "y")], none, none, notConnectedLabel⟩)).map
        (fun st => (st.admin, st.consumer, st.broker))
      = some (none, none, notConnectedLabel) :=
  (exec_connect_missing_bootstrap_no_clients envOkOk
    [("x", JValue.str "y")] rfl).1

/- ===== C9 ===== -/

/-- C9: the generated group id is written into the shared configuration before
the bootstrap-address check, so even a connect call that aborts for a missing
bootstrap address leaves a `group.id` entry in the configuration, and a
subsequent connect call finds it present and generates no new id. -/
theorem exec_connect_gid_written_despite_abort (env : ConnEnv) (cfg : Dict)
    (a0 : Option AdminClient) (c0 : Option Consumer) (b0 : JValue)
    (hg : lookupD cfg "group.id" = none)
    (hb : lookupD cfg "bootstrap.servers" = none) :
    exec_connect env ⟨cfg, a0, c0, b0⟩
        = .ok (⟨insertD cfg "group.id" (JValue.str env.freshGid), a0, c0, b0⟩,
            [Out.groupIdGenerated env.freshGid, Out.bootstrapMissing]) ∧
      lookupD (insertD cfg "group.id" (JValue.str env.freshGid)) "group.id"
        = some (JValue.str env.freshGid) ∧
      ∀ env₂ : ConnEnv,
        exec_connect env₂
            ⟨insertD cfg "group.id" (JValue.str env.freshGid), a0, c0, b0⟩
          = .ok (⟨insertD cfg "group.id" (JValue.str env.freshGid), a0, c0, b0⟩,
              [Out.bootstrapMissing]) := by
  have hk : ¬("group.id" = "bootstrap.servers") := by decide
  refine ⟨?_, ?_, ?_⟩
  · simp [exec_connect, hg, lookupD_insertD, hk, hb]
  · simp [lookupD_insertD]
  · intro env₂
    simp [exec_connect, lookupD_insertD, hk, hb]

/-- Witness for C9 at a concrete configuration lacking both keys. -/
theorem exec_connect_gid_written_despite_abort_witness :
    exec_connect envOkOk ⟨[("x", JValue.str "y")], none, none, notConnectedLabel⟩
        = .ok (⟨insertD [("x", JValue.str "y")] "group.id" (JValue.str "g0"),
              none, none, notConnectedLabel⟩,
            [Out.groupIdGenerated "g0", Out.bootstrapMissing]) ∧
      lookupD (insertD [("x", JValue.str "y")] "group.id" (JValue.str "g0"))
        "group.id" = some (JValue.str "g0") :=
  ⟨(exec_connect_gid_written_despite_abort envOkOk [("x", JValue.str "y")]
      none none notConnectedLabel rfl rfl).1,
    (exec_connect_gid_written_despite_abort envOkOk [("x", JValue.str "y")]
      none none notConnectedLabel rfl rfl).2.1⟩

/- ===== C6 / C7 helpers ===== -/

/-- Oracle instance where both client constructors raise `KafkaException`. -/
def envFailFail : ConnEnv :=
  { freshGid := "g0", chooseIdx := 0,
    mkAdmin := fun _ => .error "boom", mkConsumer := fun _ => .error "boom" }

/-- Oracle instance where the admin constructor raises and the consumer
constructor succeeds. -/
def envFailOk : ConnEnv :=
  { freshGid := "g0", chooseIdx := 0,
    mkAdmin := fun _ => .error "boom", mkConsumer := fun _ => .ok ⟨7⟩ }

theorem resolveBootstrap_ok_of_ne_empty (bv : JValue) (i : Nat)
    (h : bv ≠ .arr []) : ∃ bs, resolveBootstrap bv i = .ok bs := by
  cases bv with
  | arr xs =>
    cases xs with
    | nil => exact absurd rfl h
    | cons x t => exact ⟨_, rfl⟩
  | null => exact ⟨_, rfl⟩
  | str s => exact ⟨_, rfl⟩
  | num n => exact ⟨_, rfl⟩
  | bool b => exact ⟨_, rfl⟩
  | obj fields => exact ⟨_, rfl⟩

theorem generatedGids_of_connect (env : ConnEnv) (s : State) (bv bs : JValue)
    (hg : lookupD s.config "group.id" = none)
    (hb : lookupD s.config "bootstrap.servers" = some bv)
    (hr : resolveBootstrap bv env.chooseIdx = .ok bs) :
    generatedGids (resultOuts (exec_connect env s)) = [env.freshGid] := by
  have hk : ¬("group.id" = "bootstrap.servers") := by decide
  have hbs1 : lookupD (insertD s.config "group.id" (JValue.str env.freshGid))
      "bootstrap.servers" = some bv := by
    rw [lookupD_insertD, if_neg hk, hb]
  cases hA : env.mkAdmin
      (adminCfgOf (insertD s.config "group.id" (JValue.str env.freshGid)) bs) with
  | ok a =>
    cases hC : env.mkConsumer
        (consumerCfgOf (insertD s.config "group.id" (JValue.str env.freshGid)) bs) with
    | ok c => simp [exec_connect, hg, hbs1, hr, hA, hC, resultOuts, generatedGids]
    | error e => simp [exec_connect, hg, hbs1, hr, hA, hC, resultOuts, generatedGids]
  | error e =>
    cases hC : env.mkConsumer
        (consumerCfgOf (insertD s.config "group.id" (JValue.str env.freshGid)) bs) with
    | ok c => simp [exec_connect, hg, hbs1, hr, hA, hC, resultOuts, generatedGids]
    | error e2 => simp [exec_connect, hg, hbs1, hr, hA, hC, resultOuts, generatedGids]

/- ===== C6 ===== -/

/-- C6, counterexample: with a bootstrap address configured, no group id, and
both client constructions failing, the resolved-broker label is NOT set to the
resolved bootstrap address — it stays the unconnected sentinel (the label is
only assigned inside the success branches). -/
theorem exec_connect_label_not_set_on_double_failure :
    resultState (exec_connect envFailFail
        ⟨[("bootstrap.servers", JValue.str "b:9092")], none, none,
          notConnectedLabel⟩)
      = some ⟨[("bootstrap.servers", JValue.str "b:9092"),
            ("group.id", JValue.str "g0")], none, none, notConnectedLabel⟩ ∧
      notConnectedLabel ≠ JValue.str "b:9092" := by
  constructor
  · rfl
  · intro h
    injection h with h'
    exact absurd h' (by decide)

/-- C6 as amended: with a bootstrap address and no group id, `exec_connect`
generates exactly one fresh group identifier (the `uuid4().hex` draw), reports
it, and stores it in the configuration; identifiers generated under distinct
draws are distinct; and the resolved-broker label is set to the resolved
bootstrap address whenever at least one handle construction succeeds (if both
fail it is left unchanged). -/
theorem exec_connect_generates_fresh_gid (env : ConnEnv) (cfg : Dict)
    (bv bs b0 : JValue)
    (hg : lookupD cfg "group.id" = none)
    (hb : lookupD cfg "bootstrap.servers" = some bv)
    (hr : resolveBootstrap bv env.chooseIdx = .ok bs) :
    generatedGids (resultOuts (exec_connect env ⟨cfg, none, none, b0⟩))
        = [env.freshGid] ∧
      (resultState (exec_connect env ⟨cfg, none, none, b0⟩)).map
          (fun st => lookupD st.config "group.id")
        = some (some (JValue.str env.freshGid)) ∧
      (∀ st, resultState (exec_connect env ⟨cfg, none, none, b0⟩) = some st →
        st.admin.isSome ∨ st.consumer.isSome → st.broker = bs) ∧
      ∀ (env₂ : ConnEnv) (s₂ : State) (bv₂ bs₂ : JValue),
        lookupD s₂.config "group.id" = none →
        lookupD s₂.config "bootstrap.servers" = some bv₂ →
        resolveBootstrap bv₂ env₂.chooseIdx = .ok bs₂ →
        env₂.freshGid ≠ env.freshGid →
        generatedGids (resultOuts (exec_connect env₂ s₂))
          ≠ generatedGids (resultOuts (exec_connect env ⟨cfg, none, none, b0⟩)) := by
  have hk : ¬("group.id" = "bootstrap.servers") := by decide
  have hbs1 : lookupD (insertD cfg "group.id" (JValue.str env.freshGid))
      "bootstrap.servers" = some bv := by
    rw [lookupD_insertD, if_neg hk, hb]
  refine ⟨generatedGids_of_connect env ⟨cfg, none, none, b0⟩ bv bs hg hb hr,
    ?_, ?_, ?_⟩
  · cases hA : env.mkAdmin
        (adminCfgOf (insertD cfg "group.id" (JValue.str env.freshGid)) bs) with
    | ok a =>
      cases hC : env.mkConsumer
          (consumerCfgOf (insertD cfg "group.id" (JValue.str env.freshGid)) bs) with
      | ok c => simp [exec_connect, hg, hbs1, hr, hA, hC, resultState, lookupD_insertD]
      | error e => simp [exec_connect, hg, hbs1, hr, hA, hC, resultState, lookupD_insertD]
    | error e =>
      cases hC : env.mkConsumer
          (consumerCfgOf (insertD cfg "group.id" (JValue.str env.freshGid)) bs) with
      | ok c => simp [exec_connect, hg, hbs1, hr, hA, hC, resultState, lookupD_insertD]
      | error e2 => simp [exec_connect, hg, hbs1, hr, hA, hC, resultState, lookupD_insertD]
  · intro st hst hsome
    cases hA : env.mkAdmin
        (adminCfgOf (insertD cfg "group.id" (JValue.str env.freshGid)) bs) with
    | ok a =>
      cases hC : env.mkConsumer
          (consumerCfgOf (insertD cfg "group.id" (JValue.str env.freshGid)) bs) with
      | ok c =>
        simp [exec_connect, hg, hbs1, hr, hA, hC, resultState] at hst
        simp [← hst]
      | error e =>
        simp [exec_connect, hg, hbs1, hr, hA, hC, resultState] at hst
        simp [← hst]
    | error e =>
      cases hC : env.mkConsumer
          (consumerCfgOf (insertD cfg "group.id" (JValue.str env.freshGid)) bs) with
      | ok c =>
        simp [exec_connect, hg, hbs1, hr, hA, hC, resultState] at hst
        simp [← hst]
      | error e2 =>
        simp [exec_connect, hg, hbs1, hr, hA, hC, resultState] at hst
        rw [← hst] at hsome
        simp at hsome
  · intro env₂ s₂ bv₂ bs₂ hg₂ hb₂ hr₂ hne
    rw [generatedGids_of_connect env₂ s₂ bv₂ bs₂ hg₂ hb₂ hr₂,
      generatedGids_of_connect env ⟨cfg, none, none, b0⟩ bv bs hg hb hr]
    simp [hne]

/-- Witness for C6's amended theorem at a concrete configuration. -/
theorem exec_connect_generates_fresh_gid_witness :
    generatedGids (resultOuts (exec_connect envOkOk
        ⟨[("bootstrap.servers", JValue.str "b:9092")], none, none,
          notConnectedLabel⟩)) = ["g0"] ∧
      (resultState (exec_connect envOkOk
          ⟨[("bootstrap.servers", JValue.str "b:9092")], none, none,
            notConnectedLabel⟩)).map (fun st => lookupD st.config "group.id")
        = some (some (JValue.str "g0")) :=
  ⟨(exec_connect_generates_fresh_gid envOkOk
      [("bootstrap.servers", JValue.str "b:9092")] (JValue.str "b:9092")
      (JValue.str "b:9092") notConnectedLabel rfl rfl rfl).1,
    (exec_connect_generates_fresh_gid envOkOk
      [("bootstrap.servers", JValue.str "b:9092")] (JValue.str "b:9092")
      (JValue.str "b:9092") notConnectedLabel rfl rfl rfl).2.1⟩

/- ===== C7 ===== -/

/-- C7, counterexample: `exec_connect` DOES propagate an exception past its
own boundary when the configured bootstrap value is an empty list —
`random.choice([])` raises `IndexError`, which the `except KafkaException`
clauses do not catch. -/
theorem exec_connect_raises_on_empty_bootstrap_list :
    exec_connect envOkOk
        ⟨[("group.id", JValue.str "g"), ("bootstrap.servers", JValue.arr [])],
          none, none, notConnectedLabel⟩
      = .error .indexError := rfl

/-- C7 as amended: `exec_connect` propagates no exception whenever the
configured bootstrap value is not an empty candidate list (an empty list makes
`random.choice` raise an uncaught `IndexError`), and handle-construction
failures are isolated per client type: if admin construction always fails and
consumer construction succeeds, the final state from the never-connected state
has no admin handle, a present consumer handle, and the broker label set to
the resolved bootstrap address. -/
theorem exec_connect_isolated_handle_failures (env : ConnEnv) (cfg : Dict)
    (bv bs g : JValue) (eA : String) (c : Consumer)
    (hA : ∀ m, env.mkAdmin m = .error eA)
    (hC : ∀ m, env.mkConsumer m = .ok c)
    (hg : lookupD cfg "group.id" = some g)
    (hb : lookupD cfg "bootstrap.servers" = some bv)
    (hr : resolveBootstrap bv env.chooseIdx = .ok bs) :
    (∀ (env' : ConnEnv) (s : State),
        lookupD s.config "bootstrap.servers" ≠ some (JValue.arr []) →
        (exec_connect env' s).isOk = true) ∧
      exec_connect env ⟨cfg, none, none, notConnectedLabel⟩
        = .ok (⟨cfg, none, some c, bs⟩,
            [Out.adminFailed eA, Out.consumerConnected]) := by
  have hk : ¬("group.id" = "bootstrap.servers") := by decide
  constructor
  · intro env' s hno
    cases hg' : lookupD s.config "group.id" with
    | some g' =>
      cases hbv : lookupD s.config "bootstrap.servers" with
      | none => simp [exec_connect, hg', hbv, Except.isOk, Except.toBool]
      | some bv' =>
        have hbne : bv' ≠ .arr [] := by
          intro h
          rw [h] at hbv
          exact hno hbv
        obtain ⟨bs', hbs'⟩ :=
          resolveBootstrap_ok_of_ne_empty bv' env'.chooseIdx hbne
        cases hA' : env'.mkAdmin (adminCfgOf s.config bs') with
        | ok a =>
          cases hC' : env'.mkConsumer (consumerCfgOf s.config bs') with
          | ok c' => simp [exec_connect, hg', hbv, hbs', hA', hC', Except.isOk, Except.toBool]
          | error e => simp [exec_connect, hg', hbv, hbs', hA', hC', Except.isOk, Except.toBool]
        | error e =>
          cases hC' : env'.mkConsumer (consumerCfgOf s.config bs') with
          | ok c' => simp [exec_connect, hg', hbv, hbs', hA', hC', Except.isOk, Except.toBool]
          | error e2 => simp [exec_connect, hg', hbv, hbs', hA', hC', Except.isOk, Except.toBool]
    | none =>
      have hbv1 : lookupD (insertD s.config "group.id"
            (JValue.str env'.freshGid)) "bootstrap.servers"
          = lookupD s.config "bootstrap.servers" := by
        rw [lookupD_insertD, if_neg hk]
      cases hbv : lookupD s.config "bootstrap.servers" with
      | none =>
        rw [hbv] at hbv1
        simp [exec_connect, hg', hbv1, Except.isOk, Except.toBool]
      | some bv' =>
        rw [hbv] at hbv1
        have hbne : bv' ≠ .arr [] := by
          intro h
          rw [h] at hbv
          exact hno hbv
        obtain ⟨bs', hbs'⟩ :=
          resolveBootstrap_ok_of_ne_empty bv' env'.chooseIdx hbne
        cases hA' : env'.mkAdmin (adminCfgOf
            (insertD s.config "group.id" (JValue.str env'.freshGid)) bs') with
        | ok a =>
          cases hC' : env'.mkConsumer (consumerCfgOf
              (insertD s.config "group.id" (JValue.str env'.freshGid)) bs') with
          | ok c' => simp [exec_connect, hg', hbv1, hbs', hA', hC', Except.isOk, Except.toBool]
          | error e => simp [exec_connect, hg', hbv1, hbs', hA', hC', Except.isOk, Except.toBool]
        | error e =>
          cases hC' : env'.mkConsumer (consumerCfgOf
              (insertD s.config "group.id" (JValue.str env'.freshGid)) bs') with
          | ok c' => simp [exec_connect, hg', hbv1, hbs', hA', hC', Except.isOk, Except.toBool]
          | error e2 => simp [exec_connect, hg', hbv1, hbs', hA', hC', Except.isOk, Except.toBool]
  · simp [exec_connect, hg, hb, hr, hA, hC]

/-- Witness for C7's amended theorem at a concrete configuration and oracle. -/
theorem exec_connect_isolated_handle_failures_witness :
    exec_connect envFailOk
        ⟨[("group.id", JValue.str "g"),
            ("bootstrap.servers", JValue.str "b:9092")],
          none, none, notConnectedLabel⟩
      = .ok (⟨[("group.id", JValue.str "g"),
              ("bootstrap.servers", JValue.str "b:9092")],
            none, some ⟨7⟩, JValue.str "b:9092"⟩,
          [Out.adminFailed "boom", Out.consumerConnected]) :=
  (exec_connect_isolated_handle_failures envFailOk
    [("group.id", JValue.str "g"), ("bootstrap.servers", JValue.str "b:9092")]
    (JValue.str "b:9092") (JValue.str "b:9092") (JValue.str "g") "boom" ⟨7⟩
    (fun _ => rfl) (fun _ => rfl) rfl rfl rfl).2

/- ===== exec_disconnect embedding ===== -/

/-- Embedding of `exec_disconnect(admin, consumer)`: three independent checks
(`if both None`, `if admin`, `if consumer`); closing a handle is observable
only as its printed confirmation. -/
def exec_disconnect (admin : Option AdminClient) (consumer : Option Consumer) :
    List Out :=
  (if admin.isNone && consumer.isNone then [Out.notConnected] else [])
    ++ (if admin.isSome then [Out.adminDisconnected] else [])
    ++ (if consumer.isSome then [Out.consumerDisconnected] else [])

/-- The `disconnect` command as executed by the main loop: it calls
`exec_disconnect(S.admin, S.consumer)` and assigns nothing, so the session
state passes through unchanged. -/
def disconnectStep (s : State) : State × List Out :=
  (s, exec_disconnect s.admin s.consumer)

/- ===== exec_cluster embedding ===== -/

/-- One broker record of a metadata snapshot. -/
structure Broker where
  id : Int
  host : String
  port : Int
  deriving DecidableEq

/-- A `list_topics` metadata snapshot; `brokers` is the id-keyed dict in its
iteration (insertion) order. -/
structure Metadata where
  cluster_id : String
  orig_broker_name : String
  orig_broker_id : Int
  controller_id : Int
  brokers : List (Int × Broker)
  deriving DecidableEq

/-- One resource-configuration entry as returned by `describe_configs`. -/
structure ConfigEntry where
  name : String
  value : Option String
  source : String
  is_read_only : Bool
  is_sensitive : Bool
  deriving DecidableEq

/-- Stable insertion into a `le`-sorted list (the element goes after every
element `le` it). -/
def insertSorted (le : α → α → Bool) (x : α) : List α → List α
  | [] => [x]
  | y :: ys => if le y x then y :: insertSorted le x ys else x :: y :: ys

/-- Python `sorted` with comparison `le` (insertion sort). -/
def sortByB (le : α → α → Bool) (xs : List α) : List α :=
  xs.foldr (insertSorted le) []

/-- Code-point-lexicographic `≤` on char lists, Python's string comparison. -/
def charListLe : List Char → List Char → Bool
  | [], _ => true
  | _ :: _, [] => false
  | a :: as, b :: bs => if a = b then charListLe as bs else decide (a < b)

/-- Char-list prefix test. -/
def listPrefixOf : List Char → List Char → Bool
  | [], _ => true
  | _ :: _, [] => false
  | a :: as, b :: bs => a = b && listPrefixOf as bs

/-- Char-list infix test. -/
def listInfixOf (l₁ l₂ : List Char) : Bool :=
  match l₂ with
  | [] => l₁.isEmpty
  | _ :: t => listPrefixOf l₁ l₂ || listInfixOf l₁ t

/-- Python `needle in hay` on strings: substring containment.  This is what
`k in ("ssl.client.auth")` performs in the source, because `("...")` is a
parenthesized string, not a one-element tuple. -/
def strContains (needle hay : String) : Bool :=
  listInfixOf needle.toList hay.toList

/-- Python `i in meta.brokers`: membership among the dict's keys. -/
def keyMem (brokers : List (Int × Broker)) (i : Int) : Bool :=
  brokers.any (fun kv => decide (kv.1 = i))

/-- Rows of the broker table: brokers sorted by ascending id, projected to
(id, host, port). -/
def brokerRows (brokers : List (Int × Broker)) : List (Int × String × Int) :=
  (sortByB (fun x y => decide (x.id ≤ y.id)) (brokers.map Prod.snd)).map
    (fun b => (b.id, b.host, b.port))

/-- One rendered row of a broker-config table: truncated name and value,
placeholder for an absent value, flags as presence markers. -/
def configRowOf (e : ConfigEntry) : ConfigRow :=
  (e.name.take 40,
    (match e.value with
      | some v => v.take 20
      | none => "-"),
    e.source,
    (if e.is_read_only then "Yes" else ""),
    (if e.is_sensitive then "Yes" else ""))

/-- Rendered rows of one broker's config table: entries sorted by name, kept
only when the name passes `k in ("ssl.client.auth")` (substring containment),
then rendered. -/
def configRows (entries : List (String × ConfigEntry)) : List ConfigRow :=
  ((sortByB (fun x y => charListLe x.1.toList y.1.toList) entries).filter
    (fun ke => strContains ke.1 "ssl.client.auth")).map
    (fun ke => configRowOf ke.2)

/-- Oracle for one `exec_cluster` call: outcomes of `list_topics` on each
client and of `describe_configs` per broker id (`.error msg` models a raised
`KafkaException` / failed future). -/
structure ClusterEnv where
  adminMeta : Except String Metadata
  consumerMeta : Except String Metadata
  describeConfigs : Int → Except String (List (String × ConfigEntry))

/-- The per-broker resource-config section of `exec_cluster`: one output per
broker of the snapshot, in the brokers-dict iteration order — a config table
on success, a per-broker failure diagnostic naming the broker id on error. -/
def brokerConfigOuts (env : ClusterEnv) (m : Metadata) : List Out :=
  m.brokers.map (fun kv =>
    match env.describeConfigs kv.2.id with
    | .ok entries => Out.configTable kv.2.id (configRows entries)
    | .error _ => Out.describeFailed kv.2.id)

/-- Embedding of `exec_cluster(admin, consumer)` (the `describe_cluster` block
is commented out in the source and `cluster` stays `None`). -/
def exec_cluster (env : ClusterEnv) (admin : Option AdminClient)
    (consumer : Option Consumer) : List Out :=
  if admin.isNone && consumer.isNone then [Out.notConnected]
  else
    match (if admin.isSome then env.adminMeta else env.consumerMeta) with
    | .error e => [Out.metadataError e]
    | .ok m =>
      [Out.clusterId m.cluster_id, Out.origBrokerName m.orig_broker_name,
        Out.brokerTable (brokerRows m.brokers),
        (if keyMem m.brokers m.orig_broker_id then
          Out.validOrigBroker m.orig_broker_id
        else Out.invalidOrigBroker m.orig_broker_id),
        (if keyMem m.brokers m.controller_id then
          Out.validController m.controller_id
        else Out.invalidController m.controller_id)]
      ++ (if admin.isSome then brokerConfigOuts env m else [])

/-- The broker ids named by the per-broker outputs (config tables and failure
diagnostics), in output order. -/
def perBrokerIds (outs : List Out) : List Int :=
  outs.filterMap (fun o =>
    match o with
    | .configTable i _ => some i
    | .describeFailed i => some i
    | _ => none)

/-- Whether an id list is in ascending order. -/
def ascendingIds : List Int → Bool
  | [] => true
  | [_] => true
  | a :: b :: r => decide (a ≤ b) && ascendingIds (b :: r)

/- ===== cluster lemmas ===== -/

theorem perBrokerIds_brokerConfigOuts (env : ClusterEnv)
    (l : List (Int × Broker)) :
    perBrokerIds (l.map (fun kv =>
        match env.describeConfigs kv.2.id with
        | .ok entries => Out.configTable kv.2.id (configRows entries)
        | .error _ => Out.describeFailed kv.2.id))
      = l.map (fun kv => kv.2.id) := by
  induction l with
  | nil => rfl
  | cons kv rest ih =>
    cases h : env.describeConfigs kv.2.id with
    | ok entries =>
      simp only [List.map_cons, perBrokerIds, List.filterMap_cons, h] at *
      rw [ih]
    | error e =>
      simp only [List.map_cons, perBrokerIds, List.filterMap_cons, h] at *
      rw [ih]

theorem notConnected_not_mem_brokerConfigOuts (env : ClusterEnv)
    (m : Metadata) : Out.notConnected ∉ brokerConfigOuts env m := by
  intro hmem
  rw [brokerConfigOuts, List.mem_map] at hmem
  obtain ⟨kv, _, heq⟩ := hmem
  cases h : env.describeConfigs kv.2.id with
  | ok entries =>
    rw [h] at heq
    exact Out.noConfusion heq
  | error e =>
    rw [h] at heq
    exact Out.noConfusion heq

theorem notConnected_not_mem_exec_cluster (env : ClusterEnv)
    (admin : Option AdminClient) (consumer : Option Consumer)
    (h : admin.isSome = true ∨ consumer.isSome = true) :
    Out.notConnected ∉ exec_cluster env admin consumer := by
  have hguard : (admin.isNone && consumer.isNone) = false := by
    rcases h with h | h
    · simp [Option.isNone, Option.isSome] at *
      cases admin with
      | none => exact absurd h (by simp)
      | some a => simp
    · cases consumer with
      | none => exact absurd h (by simp)
      | some c => simp
  rw [exec_cluster, hguard]
  simp only [Bool.false_eq_true, if_false]
  cases hm : (if admin.isSome then env.adminMeta else env.consumerMeta) with
  | error e => simp
  | ok m =>
    intro hmem
    rw [List.mem_append] at hmem
    rcases hmem with hmem | hmem
    · by_cases h1 : keyMem m.brokers m.orig_broker_id <;>
        by_cases h2 : keyMem m.brokers m.controller_id <;>
          simp [h1, h2] at hmem
    · rcases hif : admin.isSome with hT | hF
      · rw [hif] at hmem
        simp at hmem
      · rw [hif] at hmem
        simp at hmem
        exact notConnected_not_mem_brokerConfigOuts env m hmem

theorem bothNone_false {α β : Type} (x : Option α) (y : Option β)
    (h : x.isSome = true ∨ y.isSome = true) : (x.isNone && y.isNone) = false := by
  rcases h with h | h
  · cases x with
    | none => simp at h
    | some a => simp
  · cases y with
    | none => simp at h
    | some c => simp

theorem perBrokerIds_append (x y : List Out) :
    perBrokerIds (x ++ y) = perBrokerIds x ++ perBrokerIds y := by
  simp [perBrokerIds, List.filterMap_append]

/- ===== C1 ===== -/

/-- A config entry named "ssl" — a name that is NOT the allow-listed
"ssl.client.auth" but IS a substring of it. -/
def entrySsl : ConfigEntry :=
  { name := "ssl", value := some "required", source := "STATIC_BROKER_CONFIG",
    is_read_only := true, is_sensitive := false }

/-- A one-broker metadata snapshot. -/
def metaOne : Metadata :=
  { cluster_id := "cid", orig_broker_name := "h1", orig_broker_id := 1,
    controller_id := 1, brokers := [(1, ⟨1, "h1", 9092⟩)] }

/-- Oracle where the broker's config fetch returns the single entry "ssl". -/
def envSubstr : ClusterEnv :=
  { adminMeta := .ok metaOne, consumerMeta := .error "nc",
    describeConfigs := fun _ => .ok [("ssl", entrySsl)] }

set_option maxRecDepth 16384 in
/-- C1: the filter `k in ("ssl.client.auth")` is substring containment on a
parenthesized string, not membership in a one-element tuple, so the entry
named "ssl" — which does not equal the allow-listed name — survives the
filter and appears as a rendered row of the output table. -/
theorem exec_cluster_filter_keeps_substring_name :
    strContains "ssl" "ssl.client.auth" = true ∧
      "ssl" ≠ "ssl.client.auth" ∧
      Out.configTable 1 [("ssl", "required", "STATIC_BROKER_CONFIG", "Yes", "")]
        ∈ exec_cluster envSubstr (some ⟨0⟩) none := by
  refine ⟨rfl, by decide, ?_⟩
  have houts : exec_cluster envSubstr (some ⟨0⟩) none
      = [Out.clusterId "cid", Out.origBrokerName "h1",
          Out.brokerTable [(1, "h1", 9092)], Out.validOrigBroker 1,
          Out.validController 1,
          Out.configTable 1
            [("ssl", "required", "STATIC_BROKER_CONFIG", "Yes", "")]] := rfl
  rw [houts]
  simp

/- ===== C2 ===== -/

/-- A metadata snapshot whose brokers dict iterates in the order 3, 1, 2. -/
def metaUnsorted : Metadata :=
  { cluster_id := "cid", orig_broker_name := "h3", orig_broker_id := 3,
    controller_id := 3,
    brokers := [(3, ⟨3, "h3", 9092⟩), (1, ⟨1, "h1", 9092⟩), (2, ⟨2, "h2", 9092⟩)] }

/-- Oracle where broker 2's config fetch fails and the others succeed. -/
def envUnsorted : ClusterEnv :=
  { adminMeta := .ok metaUnsorted, consumerMeta := .error "nc",
    describeConfigs := fun i => if i = 2 then .error "boom" else .ok [] }

set_option maxRecDepth 16384 in
/-- C2, counterexample: the per-broker loop iterates `meta.brokers.values()`
unsorted, so with the brokers dict in order 3, 1, 2 (broker 2 failing, 1 and 3
succeeding) the per-broker outputs name brokers in the order 3, 1, 2 — not in
ascending broker-ID order. -/
theorem exec_cluster_per_broker_not_ascending :
    perBrokerIds (exec_cluster envUnsorted (some ⟨0⟩) none) = [3, 1, 2] ∧
      Out.describeFailed 2 ∈ exec_cluster envUnsorted (some ⟨0⟩) none ∧
      Out.configTable 1 [] ∈ exec_cluster envUnsorted (some ⟨0⟩) none ∧
      Out.configTable 3 [] ∈ exec_cluster envUnsorted (some ⟨0⟩) none ∧
      ascendingIds [3, 1, 2] = false := by
  have houts : exec_cluster envUnsorted (some ⟨0⟩) none
      = [Out.clusterId "cid", Out.origBrokerName "h3",
          Out.brokerTable [(1, "h1", 9092), (2, "h2", 9092), (3, "h3", 9092)],
          Out.validOrigBroker 3, Out.validController 3,
          Out.configTable 3 [], Out.configTable 1 [],
          Out.describeFailed 2] := rfl
  refine ⟨rfl, ?_, ?_, ?_, rfl⟩ <;> rw [houts] <;> simp

/-- C2 as amended: each broker's config-fetch failure is caught and reported
per broker, naming the failing broker's id, without aborting the other
brokers' fetches; the per-broker outputs appear in the snapshot's brokers-dict
iteration order (the loop does not re-sort them by broker id — ascending
order holds only when the dict already iterates in ascending order). -/
theorem exec_cluster_per_broker_isolation (env : ClusterEnv) (a : AdminClient)
    (consumer : Option Consumer) (m : Metadata)
    (hm : env.adminMeta = Except.ok m) :
    perBrokerIds (exec_cluster env (some a) consumer)
        = m.brokers.map (fun kv => kv.2.id) ∧
      (∀ kv ∈ m.brokers, ∀ e, env.describeConfigs kv.2.id = Except.error e →
        Out.describeFailed kv.2.id ∈ exec_cluster env (some a) consumer) ∧
      (∀ kv ∈ m.brokers, ∀ entries,
        env.describeConfigs kv.2.id = Except.ok entries →
        Out.configTable kv.2.id (configRows entries)
          ∈ exec_cluster env (some a) consumer) := by
  have hout : exec_cluster env (some a) consumer
      = [Out.clusterId m.cluster_id, Out.origBrokerName m.orig_broker_name,
          Out.brokerTable (brokerRows m.brokers),
          (if keyMem m.brokers m.orig_broker_id then
            Out.validOrigBroker m.orig_broker_id
          else Out.invalidOrigBroker m.orig_broker_id),
          (if keyMem m.brokers m.controller_id then
            Out.validController m.controller_id
          else Out.invalidController m.controller_id)]
        ++ brokerConfigOuts env m := by
    rw [exec_cluster]
    simp [hm]
  refine ⟨?_, ?_, ?_⟩
  · rw [hout, perBrokerIds_append]
    have h5 : perBrokerIds [Out.clusterId m.cluster_id,
        Out.origBrokerName m.orig_broker_name,
        Out.brokerTable (brokerRows m.brokers),
        (if keyMem m.brokers m.orig_broker_id then
          Out.validOrigBroker m.orig_broker_id
        else Out.invalidOrigBroker m.orig_broker_id),
        (if keyMem m.brokers m.controller_id then
          Out.validController m.controller_id
        else Out.invalidController m.controller_id)] = [] := by
      by_cases h1 : keyMem m.brokers m.orig_broker_id <;>
        by_cases h2 : keyMem m.brokers m.controller_id <;>
          simp [perBrokerIds, h1, h2]
    rw [h5, brokerConfigOuts, perBrokerIds_brokerConfigOuts]
    simp
  · intro kv hkv e he
    rw [hout]
    apply List.mem_append_right
    rw [brokerConfigOuts]
    apply List.mem_map.mpr
    exact ⟨kv, hkv, by rw [he]⟩
  · intro kv hkv entries he
    rw [hout]
    apply List.mem_append_right
    rw [brokerConfigOuts]
    apply List.mem_map.mpr
    exact ⟨kv, hkv, by rw [he]⟩

/-- Witness for C2's amended theorem on the concrete unsorted snapshot. -/
theorem exec_cluster_per_broker_isolation_witness :
    perBrokerIds (exec_cluster envUnsorted (some ⟨0⟩) none)
        = metaUnsorted.brokers.map (fun kv => kv.2.id) :=
  (exec_cluster_per_broker_isolation envUnsorted ⟨0⟩ none metaUnsorted rfl).1

/- ===== C8 ===== -/

/-- C8: once a metadata snapshot is obtained, the claimed origin-broker id and
controller id are each validated by membership in the snapshot's broker set —
a present id is reported valid, an absent id is reported with an explicit
invalid diagnostic — and neither outcome aborts discovery: the broker table is
always rendered and, with an admin handle, the per-broker section still
produces one output per broker. -/
theorem exec_cluster_validates_origin_and_controller (env : ClusterEnv)
    (admin : Option AdminClient) (consumer : Option Consumer) (m : Metadata)
    (h0 : admin.isSome = true ∨ consumer.isSome = true)
    (hm : (if admin.isSome then env.adminMeta else env.consumerMeta)
      = Except.ok m) :
    ((keyMem m.brokers m.orig_broker_id = true →
        Out.validOrigBroker m.orig_broker_id ∈ exec_cluster env admin consumer) ∧
      (keyMem m.brokers m.orig_broker_id = false →
        Out.invalidOrigBroker m.orig_broker_id
          ∈ exec_cluster env admin consumer)) ∧
      ((keyMem m.brokers m.controller_id = true →
        Out.validController m.controller_id ∈ exec_cluster env admin consumer) ∧
      (keyMem m.brokers m.controller_id = false →
        Out.invalidController m.controller_id
          ∈ exec_cluster env admin consumer)) ∧
      Out.brokerTable (brokerRows m.brokers) ∈ exec_cluster env admin consumer ∧
      (admin.isSome = true →
        perBrokerIds (exec_cluster env admin consumer)
          = m.brokers.map (fun kv => kv.2.id)) := by
  have hguard := bothNone_false admin consumer h0
  have hout : exec_cluster env admin consumer
      = [Out.clusterId m.cluster_id, Out.origBrokerName m.orig_broker_name,
          Out.brokerTable (brokerRows m.brokers),
          (if keyMem m.brokers m.orig_broker_id then
            Out.validOrigBroker m.orig_broker_id
          else Out.invalidOrigBroker m.orig_broker_id),
          (if keyMem m.brokers m.controller_id then
            Out.validController m.controller_id
          else Out.invalidController m.controller_id)]
        ++ (if admin.isSome then brokerConfigOuts env m else []) := by
    rw [exec_cluster, hguard]
    simp only [Bool.false_eq_true, if_false]
    rw [hm]
  refine ⟨⟨?_, ?_⟩, ⟨?_, ?_⟩, ?_, ?_⟩
  · intro h1
    rw [hout]
    simp [h1]
  · intro h1
    rw [hout]
    simp [h1]
  · intro h2
    rw [hout]
    simp [h2]
  · intro h2
    rw [hout]
    simp [h2]
  · rw [hout]
    simp
  · intro hadm
    rw [hout, hadm, perBrokerIds_append]
    have h5 : perBrokerIds [Out.clusterId m.cluster_id,
        Out.origBrokerName m.orig_broker_name,
        Out.brokerTable (brokerRows m.brokers),
        (if keyMem m.brokers m.orig_broker_id then
          Out.validOrigBroker m.orig_broker_id
        else Out.invalidOrigBroker m.orig_broker_id),
        (if keyMem m.brokers m.controller_id then
          Out.validController m.controller_id
        else Out.invalidController m.controller_id)] = [] := by
      by_cases h1 : keyMem m.brokers m.orig_broker_id <;>
        by_cases h2 : keyMem m.brokers m.controller_id <;>
          simp [perBrokerIds, h1, h2]
    rw [h5]
    simp only [if_true, List.nil_append]
    rw [brokerConfigOuts, perBrokerIds_brokerConfigOuts]

/-- A snapshot whose controller id 99 is not among its brokers. -/
def metaBadController : Metadata :=
  { cluster_id := "cid", orig_broker_name := "h1", orig_broker_id := 1,
    controller_id := 99, brokers := [(1, ⟨1, "h1", 9092⟩)] }

/-- Oracle returning the bad-controller snapshot on the admin client. -/
def envBadController : ClusterEnv :=
  { adminMeta := .ok metaBadController, consumerMeta := .error "nc",
    describeConfigs := fun _ => .ok [] }

/-- Witness for C8: valid origin id reported valid, absent controller id 99
reported with the explicit invalid diagnostic. -/
theorem exec_cluster_validates_origin_and_controller_witness :
    Out.validOrigBroker 1 ∈ exec_cluster envBadController (some ⟨0⟩) none ∧
      Out.invalidController 99 ∈ exec_cluster envBadController (some ⟨0⟩) none :=
  ⟨(exec_cluster_validates_origin_and_controller envBadController (some ⟨0⟩)
      none metaBadController (Or.inl rfl) rfl).1.1 rfl,
    (exec_cluster_validates_origin_and_controller envBadController (some ⟨0⟩)
      none metaBadController (Or.inl rfl) rfl).2.1.2 rfl⟩

/- ===== C10 ===== -/

/-- C10: the `disconnect` command never resets the session's handle fields:
the state passes through unchanged, the handles remain present, a second
disconnect produces the same release confirmations again instead of the
"not connected" report, and a subsequent `cluster` command does not take the
"not connected" abort path. -/
theorem exec_disconnect_keeps_handles (s : State)
    (h : s.admin.isSome = true ∨ s.consumer.isSome = true) :
    (disconnectStep s).1 = s ∧
      Out.notConnected ∉ (disconnectStep s).2 ∧
      disconnectStep (disconnectStep s).1 = disconnectStep s ∧
      (∀ a, s.admin = some a →
        Out.adminDisconnected ∈ (disconnectStep s).2) ∧
      (∀ c, s.consumer = some c →
        Out.consumerDisconnected ∈ (disconnectStep s).2) ∧
      ∀ env : ClusterEnv,
        Out.notConnected ∉
          exec_cluster env (disconnectStep s).1.admin
            (disconnectStep s).1.consumer := by
  have hguard := bothNone_false s.admin s.consumer h
  refine ⟨rfl, ?_, rfl, ?_, ?_, ?_⟩
  · intro hmem
    rw [disconnectStep] at hmem
    simp only [exec_disconnect, hguard, Bool.false_eq_true, if_false,
      List.nil_append] at hmem
    rcases ha : s.admin with _ | a <;> rcases hc : s.consumer with _ | c <;>
      rw [ha, hc] at hmem <;> simp at hmem
  · intro a ha
    rw [disconnectStep]
    simp [exec_disconnect, ha]
  · intro c hc
    rw [disconnectStep]
    simp [exec_disconnect, hc]
  · intro env
    exact notConnected_not_mem_exec_cluster env s.admin s.consumer h

/-- Witness for C10 at a session holding both handles. -/
theorem exec_disconnect_keeps_handles_witness :
    (disconnectStep ⟨[], some ⟨0⟩, some ⟨1⟩, notConnectedLabel⟩).1
        = ⟨[], some ⟨0⟩, some ⟨1⟩, notConnectedLabel⟩ ∧
      Out.notConnected
        ∉ (disconnectStep ⟨[], some ⟨0⟩, some ⟨1⟩, notConnectedLabel⟩).2 :=
  ⟨(exec_disconnect_keeps_handles ⟨[], some ⟨0⟩, some ⟨1⟩, notConnectedLabel⟩
      (Or.inl rfl)).1,
    (exec_disconnect_keeps_handles ⟨[], some ⟨0⟩, some ⟨1⟩, notConnectedLabel⟩
      (Or.inl rfl)).2.1⟩

end Kafkarecon
